import Mathlib

/-!
Verification development for the `playwright-vibe-check` evaluation pipeline.

The definitions below are a shallow embedding of the TypeScript sources:
  * `src/types/llm.ts`          — the `LLMResponse` shape
  * `src/providers/base-provider.ts`   — option merging, config validation, retry loop
  * `src/providers/openai-provider.ts` — adapter attempt + response normalization
    (the Anthropic provider's normalization code is line-for-line identical)
  * `src/providers/index.ts`    — `LLMService` provider registry
  * `src/playwright/fixtures.ts` — evaluation-option merging and the pass/fail decision
  * `src/utils/fs-utils.ts`     — screenshot-name generation

JavaScript numbers are modelled as exact decimals (`Dec`, an integer
mantissa over a power-of-ten scale — every numeric literal the pipeline
handles is a decimal), JS strings as `String`, thrown exceptions as
`Except String`, and `undefined`/absent values as `Option`.  Runtime JSON
values are modelled by the inductive type `Json`; unchecked TypeScript
casts (`as number`, `as "yes" | "no"`) are modelled by letting the
corresponding fields hold arbitrary `Json` values, exactly as at runtime.
-/

set_option maxHeartbeats 1000000

namespace VibeCheck

/-- `10 ^ n` by structural recursion (kernel-evaluable). -/
def pow10 : Nat → Nat
  | 0 => 1
  | n + 1 => 10 * pow10 n

/-- A JavaScript number, as an exact decimal `mant / 10 ^ scale`. -/
structure Dec where
  mant : Int
  scale : Nat
deriving DecidableEq

/-- The rational value of a `Dec`; used in theorem statements only. -/
def Dec.toRat (d : Dec) : ℚ := (d.mant : ℚ) / (10 : ℚ) ^ d.scale

/-- A natural number as a `Dec`. -/
def Dec.ofNat (n : Nat) : Dec := ⟨(n : Int), 0⟩

/-- Numeric (value) equality of `Dec`s: `a.mant / 10^a.scale = b.mant / 10^b.scale`. -/
def Dec.beqv (a b : Dec) : Bool := a.mant * (pow10 b.scale : Int) == b.mant * (pow10 a.scale : Int)

/-- Numeric strict order on `Dec`s (denominators are powers of ten, hence positive). -/
def Dec.bltv (a b : Dec) : Bool :=
  decide (a.mant * (pow10 b.scale : Int) < b.mant * (pow10 a.scale : Int))

/-- Multiplication by 100 (used for percentage formatting). -/
def Dec.mul100 (d : Dec) : Dec := ⟨d.mant * 100, d.scale⟩

/-- Runtime JSON/JS values, as produced by `JSON.parse`. -/
inductive Json where
  | null : Json
  | bool (b : Bool) : Json
  | num (q : Dec) : Json
  | str (s : String) : Json
  | arr (elems : List Json) : Json
  | obj (fields : List (String × Json)) : Json

/-- JavaScript falsiness for a `Json` value (`undefined` is modelled as a
missing `Option`, handled at use sites): `null`, `false`, `0` and `""` are
falsy, everything else is truthy. -/
def jsFalsy : Json → Bool
  | Json.null => true
  | Json.bool b => !b
  | Json.num q => q.mant == 0
  | Json.str s => s == ""
  | Json.arr _ => false
  | Json.obj _ => false

/-- Key lookup in a string-keyed association list (JS object / `Map`
lookup); first binding wins (`JSON.parse` keeps the last duplicate key,
but duplicate keys never arise in the replies the pipeline handles;
parsed objects are used read-only). -/
def lookupField {A : Type} : List (String × A) → String → Option A
  | [], _ => none
  | (k, v) :: rest, key => if k = key then some v else lookupField rest key

/-- The JavaScript `in` operator, `"confidence" in resultJson`:
defined for objects (own-property check) and arrays (index/own-property
check — `"confidence"` is never an index, so `false`), and a `TypeError`
for every primitive operand. -/
def jsHasProp (v : Json) (key : String) : Except String Bool :=
  match v with
  | Json.obj fields => Except.ok (lookupField fields key).isSome
  | Json.arr _ => Except.ok false
  | _ => Except.error ("TypeError: Cannot use 'in' operator to search for '" ++ key ++ "'")

/-- JS `x || y` applied to a possibly-absent property value `x`. -/
def jsOr (x : Option Json) (y : Json) : Json :=
  match x with
  | some v => if jsFalsy v then y else v
  | none => y

/-! ### A strict JSON parser (model of `JSON.parse`) -/

/-- JSON whitespace. -/
def isJsonWs (c : Char) : Bool :=
  c = ' ' || c = '\t' || c = '\n' || c = '\r'

/-- Drop leading JSON whitespace. -/
def skipWs : List Char → List Char
  | [] => []
  | c :: rest => if isJsonWs c then skipWs rest else c :: rest

/-- Hexadecimal digit value. -/
def hexVal (c : Char) : Option Nat :=
  if '0' ≤ c ∧ c ≤ '9' then some (c.toNat - '0'.toNat)
  else if 'a' ≤ c ∧ c ≤ 'f' then some (c.toNat - 'a'.toNat + 10)
  else if 'A' ≤ c ∧ c ≤ 'F' then some (c.toNat - 'A'.toNat + 10)
  else none

/-- Body of a JSON string literal (after the opening quote), with the
standard escapes; returns the decoded string and the remaining input. -/
def parseStringBody (acc : List Char) : List Char → Option (String × List Char)
  | [] => none
  | '"' :: rest => some (String.mk acc.reverse, rest)
  | '\\' :: esc =>
    match esc with
    | '"' :: rest => parseStringBody ('"' :: acc) rest
    | '\\' :: rest => parseStringBody ('\\' :: acc) rest
    | '/' :: rest => parseStringBody ('/' :: acc) rest
    | 'b' :: rest => parseStringBody ('\x08' :: acc) rest
    | 'f' :: rest => parseStringBody ('\x0c' :: acc) rest
    | 'n' :: rest => parseStringBody ('\n' :: acc) rest
    | 'r' :: rest => parseStringBody ('\r' :: acc) rest
    | 't' :: rest => parseStringBody ('\t' :: acc) rest
    | 'u' :: a :: b :: c :: d :: rest =>
      match hexVal a, hexVal b, hexVal c, hexVal d with
      | some ha, some hb, some hc, some hd =>
        parseStringBody (Char.ofNat (((ha * 16 + hb) * 16 + hc) * 16 + hd) :: acc) rest
      | _, _, _, _ => none
    | _ => none
  | c :: rest => if c.toNat < 32 then none else parseStringBody (c :: acc) rest

/-- Consume a maximal run of decimal digits, returning their value, their
count, and the remaining input. -/
def parseDigits (value count : Nat) : List Char → Nat × Nat × List Char
  | [] => (value, count, [])
  | c :: rest =>
    if c.isDigit then parseDigits (value * 10 + (c.toNat - '0'.toNat)) (count + 1) rest
    else (value, count, c :: rest)

/-- A strict JSON number: optional minus, integer part without leading
zeros, optional fraction, optional exponent. -/
def parseNumber (input : List Char) : Option (Dec × List Char) :=
  let (neg, s1) : Bool × List Char :=
    match input with
    | '-' :: rest => (true, rest)
    | _ => (false, input)
  match s1 with
  | [] => none
  | c :: _ =>
    if ¬ c.isDigit then none
    else
      let (ip, ic, s2) := parseDigits 0 0 s1
      if ic = 0 then none
      else if 2 ≤ ic ∧ c = '0' then none  -- leading zero
      else
        let (fv, fc, fok, s3) : Nat × Nat × Bool × List Char :=
          match s2 with
          | '.' :: rest =>
            let (fv, fcnt, s3) := parseDigits 0 0 rest
            (fv, fcnt, decide (0 < fcnt), s3)
          | _ => (0, 0, true, s2)
        if ¬ fok then none
        else
          let mant : Int := (if neg then -1 else 1) * ((ip * pow10 fc + fv : Nat) : Int)
          let base : Dec := ⟨mant, fc⟩
          match s3 with
          | 'e' :: rest => parseExponent base rest
          | 'E' :: rest => parseExponent base rest
          | _ => some (base, s3)
where
  /-- Exponent part after `e`/`E`. -/
  parseExponent (base : Dec) (input : List Char) : Option (Dec × List Char) :=
    let (eneg, s1) : Bool × List Char :=
      match input with
      | '-' :: rest => (true, rest)
      | '+' :: rest => (false, rest)
      | _ => (false, input)
    let (ev, ec, s2) := parseDigits 0 0 s1
    if ec = 0 then none
    else if eneg then some (⟨base.mant, base.scale + ev⟩, s2)
    else some (⟨base.mant * (pow10 ev : Int), base.scale⟩, s2)

mutual

/-- Fuel-bounded recursive-descent JSON value parser. -/
def parseJsonValue : Nat → List Char → Option (Json × List Char)
  | 0, _ => none
  | fuel + 1, input =>
    match skipWs input with
    | 'n' :: 'u' :: 'l' :: 'l' :: rest => some (Json.null, rest)
    | 't' :: 'r' :: 'u' :: 'e' :: rest => some (Json.bool true, rest)
    | 'f' :: 'a' :: 'l' :: 's' :: 'e' :: rest => some (Json.bool false, rest)
    | '"' :: rest =>
      match parseStringBody [] rest with
      | some (s, rest) => some (Json.str s, rest)
      | none => none
    | '[' :: rest =>
      (match skipWs rest with
       | ']' :: rest => some (Json.arr [], rest)
       | _ =>
         match parseArrayItems fuel [] rest with
         | some (elems, rest) => some (Json.arr elems, rest)
         | none => none)
    | '{' :: rest =>
      (match skipWs rest with
       | '}' :: rest => some (Json.obj [], rest)
       | _ =>
         match parseObjectItems fuel [] rest with
         | some (fields, rest) => some (Json.obj fields, rest)
         | none => none)
    | other =>
      match parseNumber other with
      | some (q, rest) => some (Json.num q, rest)
      | none => none

/-- Comma-separated array elements up to the closing bracket. -/
def parseArrayItems : Nat → List Json → List Char → Option (List Json × List Char)
  | 0, _, _ => none
  | fuel + 1, acc, input =>
    match parseJsonValue fuel input with
    | none => none
    | some (v, rest) =>
      match skipWs rest with
      | ',' :: rest => parseArrayItems fuel (v :: acc) rest
      | ']' :: rest => some ((v :: acc).reverse, rest)
      | _ => none

/-- Comma-separated `"key": value` members up to the closing brace. -/
def parseObjectItems : Nat → List (String × Json) → List Char →
    Option (List (String × Json) × List Char)
  | 0, _, _ => none
  | fuel + 1, acc, input =>
    match skipWs input with
    | '"' :: rest =>
      (match parseStringBody [] rest with
       | none => none
       | some (key, rest) =>
         match skipWs rest with
         | ':' :: rest =>
           (match parseJsonValue fuel rest with
            | none => none
            | some (v, rest) =>
              match skipWs rest with
              | ',' :: rest => parseObjectItems fuel ((key, v) :: acc) rest
              | '}' :: rest => some (((key, v) :: acc).reverse, rest)
              | _ => none)
         | _ => none)
    | _ => none

end

/-- `JSON.parse`: parse a whole string as one JSON value, requiring that
only whitespace remains. -/
def jsonParse (s : String) : Option Json :=
  match parseJsonValue (s.length + 1) s.data with
  | some (v, rest) => if skipWs rest = [] then some v else none
  | none => none

/-! ### Number rendering and JS value display -/

/-- Strip factors of ten shared by mantissa and scale (so `90 / 10^2`
renders as `0.9`, the way JavaScript prints the number). -/
def stripTens : Nat → Nat → Nat × Nat
  | m, 0 => (m, 0)
  | m, s + 1 => if m % 10 == 0 ∧ m ≠ 0 then stripTens (m / 10) s else (m, s + 1)

/-- Render a nonnegative decimal `m / 10^s` the way JavaScript prints it. -/
def renderPosDec (m s : Nat) : String :=
  let (m, s) := stripTens m s
  if s = 0 then Nat.repr m
  else
    let ip := m / pow10 s
    let fracDigits := Nat.repr (m % pow10 s)
    let padded := String.mk (List.replicate (s - fracDigits.length) '0') ++ fracDigits
    Nat.repr ip ++ "." ++ padded

/-- Render a `Dec` the way JavaScript converts the number to a string. -/
def Dec.render (d : Dec) : String :=
  if d.mant < 0 then "-" ++ renderPosDec d.mant.natAbs d.scale
  else renderPosDec d.mant.toNat d.scale

/-- JS `Array.prototype.join` / our line joiner: concatenation with a
separator between consecutive elements. -/
def joinWith (sep : String) : List String → String
  | [] => ""
  | [x] => x
  | x :: y :: ys => x ++ sep ++ joinWith sep (y :: ys)

/-- One character of a JSON-stringified string literal. -/
def escapeJsonChar (c : Char) : String :=
  if c = '"' then "\\\""
  else if c = '\\' then "\\\\"
  else if c = '\n' then "\\n"
  else if c = '\r' then "\\r"
  else if c = '\t' then "\\t"
  else if c = '\x08' then "\\b"
  else if c = '\x0c' then "\\f"
  else if c.toNat < 32 then "\\u00" ++ String.mk [hexDigit (c.toNat / 16), hexDigit (c.toNat % 16)]
  else String.mk [c]
where
  /-- Lower-case hexadecimal digit. -/
  hexDigit (n : Nat) : Char :=
    if n < 10 then Char.ofNat ('0'.toNat + n) else Char.ofNat ('a'.toNat + n - 10)

/-- JSON string literal with quotes and escapes. -/
def quoteJsonString (s : String) : String :=
  "\"" ++ String.join (s.data.map escapeJsonChar) ++ "\""

mutual

/-- `JSON.stringify` on a runtime JSON value. -/
def stringifyJson : Json → String
  | Json.null => "null"
  | Json.bool b => if b then "true" else "false"
  | Json.num d => d.render
  | Json.str s => quoteJsonString s
  | Json.arr elems => "[" ++ stringifyArr elems ++ "]"
  | Json.obj fields => "\x7b" ++ stringifyObj fields ++ "\x7d"

/-- Comma-joined stringified array elements. -/
def stringifyArr : List Json → String
  | [] => ""
  | [v] => stringifyJson v
  | v :: w :: rest => stringifyJson v ++ "," ++ stringifyArr (w :: rest)

/-- Comma-joined stringified object members. -/
def stringifyObj : List (String × Json) → String
  | [] => ""
  | [(k, v)] => quoteJsonString k ++ ":" ++ stringifyJson v
  | (k, v) :: m :: rest => quoteJsonString k ++ ":" ++ stringifyJson v ++ "," ++ stringifyObj (m :: rest)

end

mutual

/-- JS template-literal/`String()` conversion of a value (`null` prints as
`"null"`; arrays join their displayed elements with commas; plain objects
print as `[object Object]`). -/
def jsDisplay : Json → String
  | Json.null => "null"
  | Json.bool b => if b then "true" else "false"
  | Json.num d => d.render
  | Json.str s => s
  | Json.arr elems => jsDisplayList elems
  | Json.obj _ => "[object Object]"

/-- Comma-joined display of array elements. -/
def jsDisplayList : List Json → String
  | [] => ""
  | [v] => jsDisplay v
  | v :: w :: rest => jsDisplay v ++ "," ++ jsDisplayList (w :: rest)

end

/-! ### The normalized response shape (`src/types/llm.ts`, `LLMResponse`)

The TypeScript interface declares `verdict : "yes" | "no"` and
`confidence : number`, but the provider fills these fields through
unchecked casts, so at runtime they hold whatever the parsed reply
contained.  The fields are therefore modelled as `Json` values. -/

structure LLMResponse where
  verdict : Json
  confidence : Json
  failReason : Option Json := none
  reasoning : Option Json := none
  suggestions : Option Json := none
  rawResponse : Option String := none

/-! ### Response normalization
(`openai-provider.ts` lines 147–183; `AnthropicProvider` carries the same
code line for line at lines 148–184 of its file) -/

/-- The candidate substring matched by the regex `/({[\s\S]*})/`:
from the first opening brace to the last closing brace, when the latter
comes after the former (the regex is greedy, so this is exactly the
first-match string). -/
def extractBraces (s : String) : Option String :=
  match firstIdxOf '{' s.data 0, lastIdxOf '}' s.data 0 none with
  | some i, some j => if i < j then some (String.mk ((s.data.drop i).take (j - i + 1))) else none
  | _, _ => none
where
  /-- Index of the first occurrence of `c`. -/
  firstIdxOf (c : Char) : List Char → Nat → Option Nat
    | [], _ => none
    | x :: rest, i => if x = c then some i else firstIdxOf c rest (i + 1)
  /-- Index of the last occurrence of `c`. -/
  lastIdxOf (c : Char) : List Char → Nat → Option Nat → Option Nat
    | [], _, acc => acc
    | x :: rest, i, acc => lastIdxOf c rest (i + 1) (if x = c then some i else acc)

/-- The `resultJson` the `try`/`catch` around the parse computes: parse the
brace-extracted candidate if the regex matched (a candidate that fails to
parse lands in the `catch`; the whole text is not tried then), otherwise
parse the whole text. -/
def attemptParse (content : String) : Option Json :=
  match extractBraces content with
  | some cand => jsonParse cand
  | none => jsonParse content

/-- The object built in the `catch` branch when no JSON could be parsed. -/
def degradedJson (content : String) : Json :=
  Json.obj
    [ ("confidence", Json.num ⟨0, 0⟩)
    , ("reasoning", Json.str ("Error parsing response: " ++ content))
    , ("verdict", Json.str "no") ]

/-- Property access `v.key` (undefined — `none` — on non-objects). -/
def jsGetField (v : Json) (key : String) : Option Json :=
  match v with
  | Json.obj fields => lookupField fields key
  | _ => none

/-- Lines 147–183 of the provider, from the reply text `content` to the
returned `LLMResponse` (or a thrown error): extract/parse JSON with the
degraded fallback object, test `"confidence" in resultJson`, and build the
response through the unchecked casts and `||` defaults of the source. -/
def normalizeContent (content : String) (includeRaw : Bool) : Except String LLMResponse :=
  let resultJson : Json :=
    match attemptParse content with
    | some v => v
    | none => degradedJson content
  match jsHasProp resultJson "confidence" with
  | Except.error e => Except.error e
  | Except.ok false =>
    Except.ok
      { confidence := Json.num ⟨0, 0⟩
      , reasoning := some (Json.str ("Invalid response format: " ++ stringifyJson resultJson))
      , verdict := Json.str "no"
      , rawResponse := if includeRaw then some content else none }
  | Except.ok true =>
    Except.ok
      { confidence := (jsGetField resultJson "confidence").getD Json.null
        -- the property is present on this branch; `as number` is a no-op cast
      , reasoning := some (jsOr (jsGetField resultJson "reasoning") (Json.str "No reasoning provided"))
      , verdict := jsOr (jsGetField resultJson "verdict") (Json.str "no")
      , failReason := jsGetField resultJson "failReason"
      , suggestions := jsGetField resultJson "suggestions"
      , rawResponse := if includeRaw then some content else none }

/-! ### Provider configuration and its validation
(`src/types/llm.ts` `LLMProviderConfig`; `base-provider.ts` `validateConfig`) -/

structure LLMProviderConfig where
  apiKey : Option String := none
  apiKeyEnvVar : Option String := none
  defaultConfidenceThreshold : Option Dec := none
  defaultMaxRetries : Option Nat := none
  model : Option String := none
  maxTokens : Option Nat := none
  temperature : Option Dec := none
deriving DecidableEq

/-- JS falsiness of a possibly-absent string (`undefined` or `""`). -/
def strFalsy : Option String → Bool
  | none => true
  | some s => s == ""

/-- JS `x || y` on a possibly-absent number (`undefined` and `0` are falsy;
`NaN` does not arise for these fields). -/
def jsOrDec (x : Option Dec) (y : Dec) : Dec :=
  match x with
  | some d => if d.mant == 0 then y else d
  | none => y

/-- JS `x || y` on a possibly-absent integer-valued number. -/
def jsOrNat (x : Option Nat) (y : Nat) : Nat :=
  match x with
  | some n => if n == 0 then y else n
  | none => y

/-- `BaseLLMProvider.validateConfig` (`base-provider.ts` lines 33–54):
fill `apiKey` from the named environment variable when unset, then apply
the `||`-style defaults `0.8`, `3` and `0.3` (the `console.warn` on a
missing key has no modelled effect). -/
def validateConfig (env : String → Option String) (config : LLMProviderConfig) :
    LLMProviderConfig :=
  let apiKey : Option String :=
    if strFalsy config.apiKey ∧ ¬ strFalsy config.apiKeyEnvVar then
      some ((env (config.apiKeyEnvVar.getD "")).getD "")  -- process.env[envVar] || ""
    else config.apiKey
  { config with
    apiKey := apiKey
    defaultConfidenceThreshold := some (jsOrDec config.defaultConfidenceThreshold ⟨8, 1⟩)
    defaultMaxRetries := some (jsOrNat config.defaultMaxRetries 3)
    temperature := some (jsOrDec config.temperature ⟨3, 1⟩) }

/-! ### Evaluation options (`src/types/llm.ts` `EvaluateOptions`) -/

structure EvaluateOptions where
  confidenceThreshold : Option Dec := none
  modelParameters : Option (List (String × Json)) := none
  includeRawResponse : Option Bool := none
  maxRetries : Option Nat := none

/-- `base-provider.ts` lines 74–78: spread the per-call options over the
config defaults (`{ confidenceThreshold: …, maxRetries: …, ...options }`);
a key present in `options` wins, an absent key keeps the default.  A fresh
record is built; neither input is changed. -/
def mergeEvaluateOptions (config : LLMProviderConfig) (options : Option EvaluateOptions) :
    EvaluateOptions :=
  let o := options.getD {}
  { confidenceThreshold :=
      match o.confidenceThreshold with
      | some v => some v
      | none => config.defaultConfidenceThreshold
  , maxRetries :=
      match o.maxRetries with
      | some v => some v
      | none => config.defaultMaxRetries
  , modelParameters := o.modelParameters
  , includeRawResponse := o.includeRawResponse }

/-! ### The retry loop (`base-provider.ts` `evaluateScreenshot`, lines 64–124) -/

/-- Message of the dead-code throw after the loop (line 122). -/
def unknownErrorMsg (providerName : String) : String :=
  "Unknown error evaluating screenshot with " ++ providerName

/-- The `for (attempt = 1; attempt <= maxRetries||1; attempt++)` loop.
`f n` is the outcome of the `n`-th call of `evaluateScreenshotInternal`;
the second component of the result counts the attempts performed.  The
backoff sleep between attempts has no modelled effect.  Fuel-based: the
top-level entry supplies fuel `maxR`, which the loop never exhausts. -/
def retryLoop (providerName : String) (f : Nat → Except String LLMResponse) (maxR : Nat) :
    Nat → Nat → Option String → Except String LLMResponse × Nat
  | 0, attempt, lastError => (Except.error (lastError.getD (unknownErrorMsg providerName)), attempt - 1)
  | fuel + 1, attempt, lastError =>
    if attempt ≤ maxR then
      match f attempt with
      | Except.ok result => (Except.ok result, attempt)
      | Except.error e =>
        if maxR ≤ attempt then (Except.error e, attempt)
        else retryLoop providerName f maxR fuel (attempt + 1) (some e)
    else (Except.error (lastError.getD (unknownErrorMsg providerName)), attempt - 1)

/-- `BaseLLMProvider.evaluateScreenshot`: fail when the screenshot does not
exist, else merge the options and run the retry loop with bound
`mergedOptions.maxRetries || 1`. -/
def evaluateScreenshotRun (providerName : String) (screenshotExists : Bool)
    (f : Nat → Except String LLMResponse) (config : LLMProviderConfig)
    (options : Option EvaluateOptions) (screenshotPath : String) :
    Except String LLMResponse × Nat :=
  if ¬ screenshotExists then
    (Except.error ("Screenshot does not exist at path: " ++ screenshotPath), 0)
  else
    let merged := mergeEvaluateOptions config options
    let maxR := jsOrNat merged.maxRetries 1
    retryLoop providerName f maxR maxR 1 none

/-! ### The OpenAI adapter attempt
(`openai-provider.ts` `evaluateScreenshotInternal`, lines 60–196;
`utils/env.ts` `getApiKey`) -/

/-- `getApiKey` from `utils/env.ts`: the environment value when set and
non-empty, `undefined` otherwise (the warning log has no modelled effect). -/
def getApiKey (env : String → Option String) (envVarName : String) : Option String :=
  match env envVarName with
  | some v => if v == "" then none else some v
  | none => none

/-- `this.config.apiKey || getApiKey(ENV_VARS.OPENAI_API_KEY)`. -/
def resolveApiKey (config : LLMProviderConfig) (env : String → Option String) :
    Option String :=
  match config.apiKey with
  | some k => if k == "" then getApiKey env "OPENAI_API_KEY" else some k
  | none => getApiKey env "OPENAI_API_KEY"

/-- Outcome of the single `fetch` an attempt makes: a non-ok HTTP status
with the decoded error payload, or an ok response whose extracted message
text (`choices[0].message.content`) is `content`. -/
inductive FetchOutcome where
  | httpError (status : Nat) (errorPayload : Option Json)
  | reply (content : String)

/-- One call of `OpenAIProvider.evaluateScreenshotInternal`, given the
base64 screenshot read, the credential sources and the fetch outcome.
The prompt construction and request body (lines 66, 80–117) have no
modelled effect; the HTTP envelope unpacking (lines 130–145) is condensed
into `FetchOutcome.reply` carrying the extracted content.  The second
component counts network calls made by the attempt: the missing-file and
missing-key errors are thrown before `fetch` is reached. -/
def openaiAttempt (config : LLMProviderConfig) (env : String → Option String)
    (base64Image : String) (fetch : FetchOutcome) (options : EvaluateOptions)
    (screenshotPath : String) : Except String LLMResponse × Nat :=
  if base64Image == "" then
    (Except.error ("Could not read screenshot file: " ++ screenshotPath), 0)
  else
    match resolveApiKey config env with
    | none =>
      (Except.error "No OpenAI API key provided. Please check your environment variables.", 0)
    | some _ =>
      match fetch with
      | FetchOutcome.httpError status payload =>
        let msg := "API request failed with status " ++ Nat.repr status ++
          (match payload with
           | some p => ": " ++ stringifyJson p
           | none => "")
        (Except.error msg, 1)
      | FetchOutcome.reply content =>
        (normalizeContent content (options.includeRawResponse.getD false), 1)

/-- `OpenAIProvider.evaluateScreenshot` end to end: the base retry loop
driving `evaluateScreenshotInternal` with the merged options (`fetchRes n`
is the network outcome the `n`-th attempt would see). -/
def openaiEvaluateScreenshot (config : LLMProviderConfig) (env : String → Option String)
    (screenshotExists : Bool) (base64Image : String) (fetchRes : Nat → FetchOutcome)
    (options : Option EvaluateOptions) (screenshotPath : String) :
    Except String LLMResponse × Nat :=
  evaluateScreenshotRun "OpenAI" screenshotExists
    (fun n => (openaiAttempt config env base64Image (fetchRes n)
      (mergeEvaluateOptions config options) screenshotPath).1)
    config options screenshotPath

/-! ### The provider registry (`src/providers/index.ts`, `LLMService`) -/

/-- `Map.set`: replace the binding when the key is present, append
otherwise. -/
def mapSet {P : Type} (m : List (String × P)) (k : String) (v : P) : List (String × P) :=
  match m with
  | [] => [(k, v)]
  | (k0, v0) :: rest => if k0 = k then (k, v) :: rest else (k0, v0) :: mapSet rest k v

/-- The service state: the `providers` map and the current default name. -/
structure LLMService (P : Type) where
  providers : List (String × P) := []
  defaultProviderName : Option String := none

/-- `registerProvider`: insert into the map; become the default when
`isDefault` is set or the map then has exactly one entry. -/
def LLMService.registerProvider {P : Type} (svc : LLMService P) (name : String)
    (provider : P) (isDefault : Bool := false) : LLMService P :=
  let providers := mapSet svc.providers name provider
  { providers := providers
  , defaultProviderName :=
      if isDefault || providers.length == 1 then some name else svc.defaultProviderName }

/-- `setDefaultProvider`: fails unless the name is registered. -/
def LLMService.setDefaultProvider {P : Type} (svc : LLMService P) (name : String) :
    Except String (LLMService P) :=
  if (lookupField svc.providers name).isSome then
    Except.ok { svc with defaultProviderName := some name }
  else Except.error ("Provider \"" ++ name ++ "\" not registered")

/-- `getProvider`: `name || this.defaultProviderName`, failing when neither
is available or the resulting name is not registered. -/
def LLMService.getProvider {P : Type} (svc : LLMService P)
    (name : Option String := none) : Except String P :=
  let providerName : Option String :=
    match name with
    | some n => if n == "" then svc.defaultProviderName else some n
    | none => svc.defaultProviderName
  match providerName with
  | none => Except.error "No provider specified and no default provider set"
  | some pn =>
    match lookupField svc.providers pn with
    | some p => Except.ok p
    | none => Except.error ("Provider \"" ++ pn ++ "\" not found")

/-! ### Screenshot naming (`src/utils/fs-utils.ts`, `generateScreenshotName`) -/

/-- The second `.replace` of the sanitizer: collapse runs of hyphens to a
single hyphen (global regex of one-or-more hyphens). -/
def collapseDashes : List Char → List Char
  | [] => []
  | '-' :: '-' :: rest => collapseDashes ('-' :: rest)
  | c :: rest => c :: collapseDashes rest

/-- `.replace(/[^a-zA-Z0-9]/g, "-")` followed by the hyphen collapse. -/
def sanitizeJs (s : String) : List Char :=
  collapseDashes (s.data.map fun c => if c.isAlphanum then c else '-')

/-- `generateScreenshotName` with `Date.now()` passed in as `timestamp`:
sanitize and cap the title, sanitize the custom name when truthy, join
with hyphens and append the timestamp. -/
def generateScreenshotName (testTitle : String) (customName : Option String)
    (timestamp : Nat) : String :=
  let sanitizedTitle := String.mk ((sanitizeJs testTitle).take 50)
  if strFalsy customName then sanitizedTitle ++ "-" ++ Nat.repr timestamp
  else
    let sanitizedCustom := String.mk (sanitizeJs (customName.getD ""))
    sanitizedTitle ++ "-" ++ sanitizedCustom ++ "-" ++ Nat.repr timestamp

/-! ### The fixtures layer (`src/playwright/fixtures.ts`)
Option merging (lines 157–171), the pass/fail decision (lines 186–201) and
the failure message (lines 216–247). -/

/-- `VibeConfig.evaluation` (`src/config/config.ts`): the session-level
evaluation defaults; every field is required there. -/
structure SessionEvaluation where
  confidenceThreshold : Dec
  includeRawResponse : Bool
  maxRetries : Nat
  modelParameters : List (String × Json)

/-- Per-call `VibeCheckOptions` (`src/config/config.ts`). -/
structure VibeCheckOptions where
  name : Option String := none
  provider : Option String := none
  confidenceThreshold : Option Dec := none
  includeRawResponse : Option Bool := none
  maxRetries : Option Nat := none
  modelParameters : Option (List (String × Json)) := none

/-- Object spread `{ ...a, ...b }`: keys of `b` win; a fresh object. -/
def recordSpread (a b : List (String × Json)) : List (String × Json) :=
  a.filter (fun kv => (lookupField b kv.1).isNone) ++ b

/-- Fixtures lines 157–171: build the evaluation options for a check from
the per-call options (`??`-defaulted field by field against the session
configuration) and the spread-merged model parameters.  A fresh record is
built; neither layer is modified. -/
def mergeEvaluationOptions (options : Option VibeCheckOptions)
    (sessionEval : SessionEvaluation) : EvaluateOptions :=
  let o := options.getD {}
  { confidenceThreshold := some (o.confidenceThreshold.getD sessionEval.confidenceThreshold)
  , includeRawResponse := some (o.includeRawResponse.getD sessionEval.includeRawResponse)
  , maxRetries := some (o.maxRetries.getD sessionEval.maxRetries)
  , modelParameters :=
      some (recordSpread sessionEval.modelParameters (o.modelParameters.getD [])) }

/-- Strict equality `v === "lit"` of a runtime value against a string
literal. -/
def jsStrictEqStr (v : Json) (s : String) : Bool :=
  match v with
  | Json.str t => t == s
  | _ => false

/-- JS `ToNumber` on a runtime value: numbers pass through; `null`,
booleans and numeric strings coerce; non-numeric strings are `NaN`
(`none`).  `ToPrimitive` on arrays and objects is not modelled (the
pipeline never compares such values): `NaN` is assumed. -/
def jsToNumber : Json → Option Dec
  | Json.null => some ⟨0, 0⟩
  | Json.bool b => some (if b then ⟨1, 0⟩ else ⟨0, 0⟩)
  | Json.num d => some d
  | Json.str s =>
    (match skipWs s.data with
     | [] => some ⟨0, 0⟩
     | t =>
       match parseNumber t with
       | some (d, rest) => if skipWs rest = [] then some d else none
       | none => none)
  | Json.arr _ => none
  | Json.obj _ => none

/-- `result.confidence < threshold` (JS `<`; comparisons against `NaN` are
false). -/
def jsLtDec (v : Json) (t : Dec) : Bool :=
  match jsToNumber v with
  | some d => Dec.bltv d t
  | none => false

/-- `Number.prototype.toFixed(1)` on a nonnegative decimal `m / 10^s`:
round half away from zero to one decimal place. -/
def toFixed1Pos (m s : Nat) : String :=
  let n := (m * 20 + pow10 s) / (2 * pow10 s)
  Nat.repr (n / 10) ++ "." ++ Nat.repr (n % 10)

/-- `toFixed(1)` on a `Dec` (negative numbers format their absolute
value behind a minus sign, as in ECMA-262). -/
def Dec.toFixed1 (d : Dec) : String :=
  if d.mant < 0 then "-" ++ toFixed1Pos d.mant.natAbs d.scale
  else toFixed1Pos d.mant.toNat d.scale

/-- `(v * 100).toFixed(1)` on a runtime confidence value. -/
def jsPercent1 (v : Json) : String :=
  match jsToNumber v with
  | some d => (d.mul100).toFixed1
  | none => "NaN"

/-- The `lines` array of `buildFailureMessage` (fixtures lines 222–244).
The `suggestions && suggestions.length > 0` guard is modelled for the
typed case of an array value (a non-array `suggestions` would make the
source throw inside `forEach`; no claim exercises it). -/
def buildFailureMessageLines (specification : String) (result : LLMResponse)
    (threshold : Dec) (screenshotPath : String) : List String :=
  let lines :=
    [ "Vibe check failed!"
    , ""
    , "Specification: \"" ++ specification ++ "\""
    , ""
    , "Verdict: " ++ jsDisplay result.verdict
    , "Confidence: " ++ jsPercent1 result.confidence ++ "% (threshold: " ++
        Dec.toFixed1 threshold.mul100 ++ "%)" ]
  let lines := lines ++
    (match result.reasoning with
     | some r => if jsFalsy r then [] else ["", "Reasoning: " ++ jsDisplay r]
     | none => [])
  let lines := lines ++
    (match result.failReason with
     | some fr => if jsFalsy fr then [] else ["", "Fail Reason: " ++ jsDisplay fr]
     | none => [])
  let lines := lines ++
    (match result.suggestions with
     | some (Json.arr sugg) =>
       if 0 < sugg.length then
         ["", "Suggestions:"] ++ sugg.map (fun s => "  - " ++ jsDisplay s)
       else []
     | _ => [])
  lines ++ ["", "Screenshot: " ++ screenshotPath]

/-- `buildFailureMessage` (fixtures lines 216–247): the lines joined with
newlines. -/
def buildFailureMessage (specification : String) (result : LLMResponse)
    (threshold : Dec) (screenshotPath : String) : String :=
  joinWith "\n" (buildFailureMessageLines specification result threshold screenshotPath)

/-- Fixtures lines 190–203: the pass/fail step of `vibeCheck` on the
evaluation result — throw the failure message when
`result.verdict === "no" || result.confidence < threshold`, return the
result otherwise. -/
def vibeCheckDecide (result : LLMResponse) (threshold : Dec)
    (specification screenshotPath : String) : Except String LLMResponse :=
  if jsStrictEqStr result.verdict "no" || jsLtDec result.confidence threshold then
    Except.error (buildFailureMessage specification result threshold screenshotPath)
  else Except.ok result

/-! ### Statement-level helper definitions -/

/-- `needle` occurs as a contiguous substring of `hay`. -/
def strContains (needle hay : String) : Prop :=
  ∃ a b, hay.data = a ++ needle.data ++ b

/-- Decidable matcher for the anchored pattern `^<pre><digits>+$`
(a literal prefix followed by one or more decimal digits). -/
def matchesNamePattern (pre s : String) : Bool :=
  (s.data.take pre.data.length == pre.data) &&
  (s.data.drop pre.data.length).all Char.isDigit &&
  decide (pre.data.length < s.data.length)

/-! ## Helper lemmas -/

theorem pow10_eq_pow (n : Nat) : pow10 n = 10 ^ n := by
  induction n with
  | zero => rfl
  | succ n ih => simp [pow10, ih, pow_succ]; ring

theorem pow10_int_pos (n : Nat) : (0 : Int) < (pow10 n : Int) := by
  have h : 0 < pow10 n := by
    rw [pow10_eq_pow]; exact Nat.pos_pow_of_pos n (by norm_num)
  exact_mod_cast h

theorem pow10_rat_cast (n : Nat) : ((pow10 n : Int) : ℚ) = (10 : ℚ) ^ n := by
  rw [pow10_eq_pow]; push_cast; ring

theorem Dec.toRat_lt_iff (a b : Dec) :
    a.toRat < b.toRat ↔ a.mant * (pow10 b.scale : Int) < b.mant * (pow10 a.scale : Int) := by
  have ha : (0 : ℚ) < (10 : ℚ) ^ a.scale := by positivity
  have hb : (0 : ℚ) < (10 : ℚ) ^ b.scale := by positivity
  rw [Dec.toRat, Dec.toRat, div_lt_div_iff₀ ha hb, ← pow10_rat_cast a.scale,
    ← pow10_rat_cast b.scale]
  exact_mod_cast Iff.rfl

theorem Dec.bltv_true_iff (a b : Dec) : Dec.bltv a b = true ↔ a.toRat < b.toRat := by
  rw [Dec.bltv, decide_eq_true_eq, Dec.toRat_lt_iff]

theorem Dec.bltv_false_iff (a b : Dec) : Dec.bltv a b = false ↔ b.toRat ≤ a.toRat := by
  rw [← Bool.not_eq_true, Dec.bltv_true_iff, not_lt]

theorem strContains_of_mem_joinWith (sep x : String) (l : List String) (h : x ∈ l) :
    strContains x (joinWith sep l) := by
  induction l with
  | nil => cases h
  | cons y t ih =>
    cases t with
    | nil =>
      rcases List.mem_singleton.mp h with rfl
      exact ⟨[], [], by simp [joinWith]⟩
    | cons z zs =>
      rcases List.mem_cons.mp h with rfl | hmem
      · exact ⟨[], sep.data ++ (joinWith sep (z :: zs)).data,
          by simp [joinWith, String.data_append]⟩
      · rcases ih hmem with ⟨a, b, hab⟩
        exact ⟨y.data ++ sep.data ++ a, b,
          by simp [joinWith, String.data_append, hab]⟩

theorem jsFalsy_str_append_false (s t : String) (h : s.data ≠ []) :
    jsFalsy (Json.str (s ++ t)) = false := by
  have hne : s ++ t ≠ "" := by
    intro he
    apply h
    have hd : (s ++ t).data = [] := by rw [he]
    rw [String.data_append] at hd
    exact List.append_eq_nil.mp hd |>.1
  simp [jsFalsy, hne]

theorem jsOrNat_one_pos (x : Option Nat) : 1 ≤ jsOrNat x 1 := by
  rcases x with _ | n
  · exact le_refl 1
  · by_cases h : n = 0
    · simp [jsOrNat, h]
    · simp [jsOrNat, h]
      omega

theorem jsOrNat_of_pos (m : Nat) (hm : 1 ≤ m) : jsOrNat (some m) 1 = m := by
  have h : ¬ m = 0 := by omega
  simp [jsOrNat, h]

theorem jsOrDec_mant_ne_zero (x : Option Dec) (y : Dec) (hy : y.mant ≠ 0) :
    (jsOrDec x y).mant ≠ 0 := by
  rcases x with _ | d
  · exact hy
  · by_cases h : d.mant = 0
    · simp [jsOrDec, h, hy]
    · simp [jsOrDec, h]

theorem jsOrNat_ne_zero (x : Option Nat) (y : Nat) (hy : y ≠ 0) : jsOrNat x y ≠ 0 := by
  rcases x with _ | n
  · exact hy
  · by_cases h : n = 0
    · simp [jsOrNat, h, hy]
    · simp [jsOrNat, h]

/-! Retry-loop lemmas. -/

theorem retryLoop_all_error (pn : String) (f : Nat → Except String LLMResponse)
    (maxR : Nat) (e : Nat → String) :
    ∀ (fuel a : Nat) (la : Option String), 1 ≤ a → a ≤ maxR → maxR - a < fuel →
      (∀ n, a ≤ n → n ≤ maxR → f n = Except.error (e n)) →
      retryLoop pn f maxR fuel a la = (Except.error (e maxR), maxR) := by
  intro fuel
  induction fuel with
  | zero => intro a la _ ha2 hfuel _; omega
  | succ fuel ih =>
    intro a la ha1 ha2 _ herr
    rw [retryLoop]
    simp only [if_pos ha2, herr a (le_refl a) ha2]
    by_cases hend : maxR ≤ a
    · have : a = maxR := le_antisymm ha2 hend
      subst this
      simp
    · simp only [if_neg hend]
      exact ih (a + 1) (some (e a)) (by omega) (by omega) (by omega)
        (fun n hn1 hn2 => herr n (by omega) hn2)

theorem retryLoop_first_ok (pn : String) (f : Nat → Except String LLMResponse)
    (maxR k : Nat) (r : LLMResponse) (e : Nat → String) :
    ∀ (fuel a : Nat) (la : Option String), 1 ≤ a → a ≤ k → k ≤ maxR → k - a < fuel →
      (∀ n, a ≤ n → n < k → f n = Except.error (e n)) →
      f k = Except.ok r →
      retryLoop pn f maxR fuel a la = (Except.ok r, k) := by
  intro fuel
  induction fuel with
  | zero => intro a la _ hak _ hfuel _ _; omega
  | succ fuel ih =>
    intro a la ha1 hak hkm _ herr hok
    rw [retryLoop]
    simp only [if_pos (le_trans hak hkm)]
    by_cases heq : a = k
    · subst heq
      simp [hok]
    · have hlt : a < k := lt_of_le_of_ne hak heq
      rw [herr a (le_refl a) hlt]
      simp only
      have hnend : ¬ maxR ≤ a := by omega
      simp only [if_neg hnend]
      exact ih (a + 1) (some (e a)) (by omega) (by omega) hkm (by omega)
        (fun n hn1 hn2 => herr n (by omega) hn2) hok

/-! Registry lemmas. -/

theorem lookupField_mapSet_self {P : Type} (m : List (String × P)) (k : String) (v : P) :
    lookupField (mapSet m k v) k = some v := by
  induction m with
  | nil => simp [mapSet, lookupField]
  | cons kv rest ih =>
    rcases kv with ⟨k0, v0⟩
    by_cases h : k0 = k
    · simp [mapSet, h, lookupField]
    · simp [mapSet, h, lookupField, ih]

theorem one_le_mapSet_length {P : Type} (m : List (String × P)) (k : String) (v : P) :
    1 ≤ (mapSet m k v).length := by
  induction m with
  | nil => simp [mapSet]
  | cons kv rest ih =>
    rcases kv with ⟨k0, v0⟩
    by_cases h : k0 = k <;> simp [mapSet, h]

theorem two_le_mapSet_length {P : Type} (m : List (String × P)) (name k : String) (p : P)
    (hk : k ∈ m.map Prod.fst) (hne : k ≠ name) : 2 ≤ (mapSet m name p).length := by
  induction m with
  | nil => cases hk
  | cons kv rest ih =>
    rcases kv with ⟨k0, v0⟩
    by_cases h : k0 = name
    · subst h
      rcases List.mem_map.mp hk with ⟨⟨k1, v1⟩, hmem, hfst⟩
      rcases List.mem_cons.mp hmem with heq | hmem2
      · exact absurd (by rw [← hfst, heq]) hne
      · have hrest : rest ≠ [] := by
          intro hnil; rw [hnil] at hmem2; cases hmem2
        have : 1 ≤ rest.length := by
          cases rest with
          | nil => exact absurd rfl hrest
          | cons _ _ => simp
        simp [mapSet]
        omega
    · simp only [mapSet, if_neg h, List.length_cons]
      have h1 := one_le_mapSet_length rest name p
      omega

/-! Option-merge lemmas. -/

theorem lookupField_append {A : Type} (x y : List (String × A)) (k : String) :
    lookupField (x ++ y) k =
      match lookupField x k with
      | some v => some v
      | none => lookupField y k := by
  induction x with
  | nil => simp [lookupField]
  | cons kv rest ih =>
    rcases kv with ⟨k0, v0⟩
    by_cases h : k0 = k <;> simp [lookupField, h, ih]

theorem lookupField_recordSpread (a b : List (String × Json)) (k : String) :
    lookupField (recordSpread a b) k =
      match lookupField b k with
      | some v => some v
      | none => lookupField a k := by
  induction a with
  | nil =>
    simp only [recordSpread, List.filter_nil, List.nil_append]
    cases h : lookupField b k <;> simp [h, lookupField]
  | cons kv rest ih =>
    rcases kv with ⟨k0, v0⟩
    have hrs : recordSpread rest b =
        List.filter (fun kv => (lookupField b kv.1).isNone) rest ++ b := rfl
    rw [recordSpread, List.filter_cons]
    cases h0 : lookupField b k0 with
    | none =>
      rw [if_pos (by simp [h0]), List.cons_append]
      by_cases h : k0 = k
      · subst h
        simp [lookupField, h0]
      · simp only [lookupField, if_neg h, ← hrs, ih]
    | some v =>
      rw [if_neg (by simp [h0]), ← hrs, ih]
      by_cases h : k0 = k
      · subst h
        simp [lookupField, h0]
      · simp [lookupField, h]

/-! ## Claim theorems -/

/-- C3: when every adapter attempt fails, `evaluateScreenshot` performs
exactly `maxRetries` total attempts and then propagates the last error;
when attempt `k ≤ maxRetries` succeeds, it performs exactly `k` attempts
and returns that attempt's result. -/
theorem evaluateScreenshot_retry_semantics
    (providerName screenshotPath : String) (f : Nat → Except String LLMResponse)
    (e : Nat → String) (config : LLMProviderConfig) (options : EvaluateOptions)
    (m : Nat) (hm : 1 ≤ m) (hopt : options.maxRetries = some m) :
    ((∀ n, 1 ≤ n → n ≤ m → f n = Except.error (e n)) →
      evaluateScreenshotRun providerName true f config (some options) screenshotPath =
        (Except.error (e m), m)) ∧
    (∀ k r, 1 ≤ k → k ≤ m →
      (∀ n, 1 ≤ n → n < k → f n = Except.error (e n)) → f k = Except.ok r →
      evaluateScreenshotRun providerName true f config (some options) screenshotPath =
        (Except.ok r, k)) := by
  have hmax : jsOrNat (mergeEvaluateOptions config (some options)).maxRetries 1 = m := by
    simp [mergeEvaluateOptions, hopt, jsOrNat_of_pos m hm]
  have hrun : evaluateScreenshotRun providerName true f config (some options) screenshotPath =
      retryLoop providerName f m m 1 none := by
    simp [evaluateScreenshotRun, hmax]
  constructor
  · intro herr
    rw [hrun]
    exact retryLoop_all_error providerName f m e m 1 none (le_refl 1) hm (by omega) herr
  · intro k r hk1 hkm herr hok
    rw [hrun]
    exact retryLoop_first_ok providerName f m k r e m 1 none (le_refl 1) hk1 hkm
      (by omega) herr hok

/-- C3 witness: with three persistently failing attempts and
`maxRetries = 3`, the run makes exactly 3 attempts and surfaces the last
error. -/
theorem evaluateScreenshot_retry_semantics_witness :
    evaluateScreenshotRun "OpenAI" true (fun _ => Except.error "boom") {}
      (some { maxRetries := some 3 }) "shot.png" = (Except.error "boom", 3) :=
  (evaluateScreenshot_retry_semantics "OpenAI" "shot.png" (fun _ => Except.error "boom")
    (fun _ => "boom") {} { maxRetries := some 3 } 3 (by norm_num) rfl).1
    (fun _ _ _ => rfl)

/-- C4 counterexample: with no API key configured and none in the
environment, the attempt fails with the auth message before any network
call — but with `maxRetries = 2` the run performs 2 attempts, i.e. the
missing-credential failure IS retried by the retry loop (the claim says it
is never retried). -/
theorem auth_failure_retried_counterexample :
    (openaiAttempt {} (fun _ => none) "img64" (FetchOutcome.reply "x")
      (mergeEvaluateOptions {} (some { maxRetries := some 2 })) "shot.png").2 = 0 ∧
    openaiEvaluateScreenshot {} (fun _ => none) true "img64"
      (fun _ => FetchOutcome.reply "x") (some { maxRetries := some 2 }) "shot.png" =
      (Except.error "No OpenAI API key provided. Please check your environment variables.", 2) :=
  ⟨rfl, rfl⟩

/-- C4 amended: a missing credential (no key resolvable from the config or
the `OPENAI_API_KEY` environment variable) makes every attempt fail before
any network call — but the resulting error is handled like any other
attempt error: the run retries it and performs all `maxRetries` attempts. -/
theorem auth_failure_before_network_but_retried
    (config : LLMProviderConfig) (env : String → Option String) (b64 : String)
    (fetchRes : Nat → FetchOutcome) (options : EvaluateOptions)
    (screenshotPath : String) (m : Nat)
    (hkey : resolveApiKey config env = none) (hb : b64 ≠ "")
    (hm : 1 ≤ m) (hopt : options.maxRetries = some m) :
    (∀ n, openaiAttempt config env b64 (fetchRes n)
        (mergeEvaluateOptions config (some options)) screenshotPath =
      (Except.error "No OpenAI API key provided. Please check your environment variables.", 0)) ∧
    openaiEvaluateScreenshot config env true b64 fetchRes (some options) screenshotPath =
      (Except.error "No OpenAI API key provided. Please check your environment variables.", m) := by
  have hb' : (b64 == "") = false := beq_eq_false_iff_ne.mpr hb
  have hatt : ∀ n, openaiAttempt config env b64 (fetchRes n)
      (mergeEvaluateOptions config (some options)) screenshotPath =
      (Except.error "No OpenAI API key provided. Please check your environment variables.", 0) := by
    intro n
    cases hfr : fetchRes n <;> simp [openaiAttempt, hb', hkey]
  refine ⟨hatt, ?_⟩
  have hmax : jsOrNat (mergeEvaluateOptions config (some options)).maxRetries 1 = m := by
    simp [mergeEvaluateOptions, hopt, jsOrNat_of_pos m hm]
  have hrun : openaiEvaluateScreenshot config env true b64 fetchRes (some options)
      screenshotPath =
      retryLoop "OpenAI"
        (fun n => (openaiAttempt config env b64 (fetchRes n)
          (mergeEvaluateOptions config (some options)) screenshotPath).1)
        m m 1 none := by
    simp [openaiEvaluateScreenshot, evaluateScreenshotRun, hmax]
  rw [hrun]
  exact retryLoop_all_error "OpenAI" _ m
    (fun _ => "No OpenAI API key provided. Please check your environment variables.")
    m 1 none (le_refl 1) hm (by omega)
    (fun n _ _ => by rw [hatt n])

/-- C4 witness for the amended theorem: concrete empty config and
environment, `maxRetries = 2`. -/
theorem auth_failure_before_network_but_retried_witness :
    openaiEvaluateScreenshot {} (fun _ => none) true "img64"
      (fun _ => FetchOutcome.reply "x") (some { maxRetries := some 2 }) "shot.png" =
      (Except.error "No OpenAI API key provided. Please check your environment variables.", 2) :=
  (auth_failure_before_network_but_retried {} (fun _ => none) "img64"
    (fun _ => FetchOutcome.reply "x") { maxRetries := some 2 } "shot.png" 2
    rfl (by decide) (by norm_num) rfl).2

/-- C5 counterexample: the reply text `"42"` contains no well-formed JSON
object, yet normalization raises (`"confidence" in 42` is a `TypeError`)
instead of degrading, and the thrown error IS retried (2 attempts with
`maxRetries = 2`). -/
theorem nonobject_reply_raises_counterexample :
    normalizeContent "42" false =
      Except.error "TypeError: Cannot use 'in' operator to search for 'confidence'" ∧
    evaluateScreenshotRun "OpenAI" true (fun _ => normalizeContent "42" false) {}
      (some { maxRetries := some 2 }) "shot.png" =
      (Except.error "TypeError: Cannot use 'in' operator to search for 'confidence'", 2) :=
  ⟨rfl, rfl⟩

/-- C5 amended: for every reply text on which the JSON parse fails (both
on the brace-extracted candidate and on the whole text), normalization
does not raise: it returns a completed degraded verdict — `Fail`
(`"no"`), confidence 0, reasoning embedding the raw text — and the retry
loop accepts it at attempt 1 without any retry.  (A reply text that parses
to a JSON primitive, such as `"42"`, instead makes the `in` test throw,
and that error is retried — see the counterexample.) -/
theorem parse_failure_degrades_without_retry
    (content : String) (includeRaw : Bool) (config : LLMProviderConfig)
    (options : Option EvaluateOptions) (providerName screenshotPath : String)
    (hp : attemptParse content = none) :
    normalizeContent content includeRaw = Except.ok
      { confidence := Json.num ⟨0, 0⟩
      , reasoning := some (Json.str ("Error parsing response: " ++ content))
      , verdict := Json.str "no"
      , failReason := none, suggestions := none
      , rawResponse := if includeRaw then some content else none } ∧
    evaluateScreenshotRun providerName true (fun _ => normalizeContent content includeRaw)
      config options screenshotPath =
      (Except.ok
        { confidence := Json.num ⟨0, 0⟩
        , reasoning := some (Json.str ("Error parsing response: " ++ content))
        , verdict := Json.str "no"
        , failReason := none, suggestions := none
        , rawResponse := if includeRaw then some content else none }, 1) := by
  have hreason : jsFalsy (Json.str ("Error parsing response: " ++ content)) = false :=
    jsFalsy_str_append_false "Error parsing response: " content (by decide)
  have hnorm : normalizeContent content includeRaw = Except.ok
      { confidence := Json.num ⟨0, 0⟩
      , reasoning := some (Json.str ("Error parsing response: " ++ content))
      , verdict := Json.str "no"
      , failReason := none, suggestions := none
      , rawResponse := if includeRaw then some content else none } := by
    have hno : jsFalsy (Json.str "no") = false := rfl
    simp [normalizeContent, hp, degradedJson, jsHasProp, lookupField, jsGetField, jsOr,
      hreason, hno]
  refine ⟨hnorm, ?_⟩
  have hpos := jsOrNat_one_pos (mergeEvaluateOptions config options).maxRetries
  have hrun : evaluateScreenshotRun providerName true
      (fun _ => normalizeContent content includeRaw) config options screenshotPath =
      retryLoop providerName (fun _ => normalizeContent content includeRaw)
        (jsOrNat (mergeEvaluateOptions config options).maxRetries 1)
        (jsOrNat (mergeEvaluateOptions config options).maxRetries 1) 1 none := by
    simp [evaluateScreenshotRun]
  rw [hrun]
  exact retryLoop_first_ok providerName _
    (jsOrNat (mergeEvaluateOptions config options).maxRetries 1) 1 _ (fun _ => "")
    (jsOrNat (mergeEvaluateOptions config options).maxRetries 1) 1 none
    (le_refl 1) (le_refl 1) hpos (by omega)
    (fun n h1 h2 => absurd (lt_of_le_of_lt h1 h2) (lt_irrefl 1)) hnorm

/-- C5 witness for the amended theorem: unparseable text `"garbage"`. -/
theorem parse_failure_degrades_without_retry_witness :
    normalizeContent "garbage" false = Except.ok
      { confidence := Json.num ⟨0, 0⟩
      , reasoning := some (Json.str "Error parsing response: garbage")
      , verdict := Json.str "no"
      , failReason := none, suggestions := none, rawResponse := none } :=
  (parse_failure_degrades_without_retry "garbage" false {} none "OpenAI" "shot.png" rfl).1

/-- C1: for every verdict with outcome Pass (`"yes"`) or Fail (`"no"`) and
every threshold, the pass/fail step of `vibeCheck` passes iff the verdict
is `"yes"` and the confidence is at least the threshold; and a failure
raises an error whose message contains the specification text, the
verdict, the confidence and threshold as percentages to one decimal
place, and the screenshot path. -/
theorem vibeCheck_decision_correct
    (result : LLMResponse) (c threshold : Dec) (specification screenshotPath : String)
    (hv : result.verdict = Json.str "yes" ∨ result.verdict = Json.str "no")
    (hc : result.confidence = Json.num c) :
    ((vibeCheckDecide result threshold specification screenshotPath).isOk = true ↔
      (result.verdict = Json.str "yes" ∧ threshold.toRat ≤ c.toRat)) ∧
    (∀ msg, vibeCheckDecide result threshold specification screenshotPath = Except.error msg →
      strContains ("Specification: \"" ++ specification ++ "\"") msg ∧
      strContains ("Verdict: " ++ jsDisplay result.verdict) msg ∧
      strContains ("Confidence: " ++ Dec.toFixed1 (Dec.mul100 c) ++ "% (threshold: " ++
        Dec.toFixed1 (Dec.mul100 threshold) ++ "%)") msg ∧
      strContains ("Screenshot: " ++ screenshotPath) msg) := by
  have h2 : jsLtDec result.confidence threshold = Dec.bltv c threshold := by
    rw [hc]
    rfl
  constructor
  · rcases hv with hyes | hno
    · have h1 : jsStrictEqStr (Json.str "yes") "no" = false := by decide
      cases hb : Dec.bltv c threshold with
      | false =>
        have hle := (Dec.bltv_false_iff c threshold).mp hb
        simp [vibeCheckDecide, h1, h2, hb, hyes, hle, Except.isOk, Except.toBool]
      | true =>
        have hnle : ¬ threshold.toRat ≤ c.toRat :=
          not_le.mpr ((Dec.bltv_true_iff c threshold).mp hb)
        simp [vibeCheckDecide, h1, h2, hb, hyes, hnle, Except.isOk, Except.toBool]
    · have h1 : jsStrictEqStr (Json.str "no") "no" = true := by decide
      simp [vibeCheckDecide, h1, hno, Except.isOk, Except.toBool]
  · intro msg hmsg
    have hmsg' : msg = buildFailureMessage specification result threshold screenshotPath := by
      unfold vibeCheckDecide at hmsg
      split at hmsg
      · injection hmsg with h
        exact h.symm
      · cases hmsg
    subst hmsg'
    rw [buildFailureMessage]
    have hconfLine : "Confidence: " ++ jsPercent1 result.confidence ++ "% (threshold: " ++
        Dec.toFixed1 (Dec.mul100 threshold) ++ "%)" =
        "Confidence: " ++ Dec.toFixed1 (Dec.mul100 c) ++ "% (threshold: " ++
        Dec.toFixed1 (Dec.mul100 threshold) ++ "%)" := by
      rw [hc]; rfl
    refine ⟨?_, ?_, ?_, ?_⟩ <;> apply strContains_of_mem_joinWith
    · simp [buildFailureMessageLines]
    · simp [buildFailureMessageLines]
    · rw [← hconfLine]
      simp [buildFailureMessageLines]
    · simp [buildFailureMessageLines]

/-- C1 witness: a `"yes"` verdict with confidence 0.9 against threshold
0.8 — the decision passes. -/
theorem vibeCheck_decision_correct_witness :
    ((vibeCheckDecide { verdict := Json.str "yes", confidence := Json.num ⟨9, 1⟩ }
        ⟨8, 1⟩ "a submit button" "shot.png").isOk = true ↔
      ((Json.str "yes" : Json) = Json.str "yes" ∧
        (Dec.mk 8 1).toRat ≤ (Dec.mk 9 1).toRat)) :=
  (vibeCheck_decision_correct
    { verdict := Json.str "yes", confidence := Json.num ⟨9, 1⟩ } ⟨9, 1⟩ ⟨8, 1⟩
    "a submit button" "shot.png" (Or.inl rfl) rfl).1

/-- C2 counterexample: a reply whose `verdict` field is `"maybe"` is NOT
mapped to the Fail outcome `"no"`: the unchecked cast passes the string
through unchanged, so the returned verdict is `"maybe"`. -/
theorem verdict_maybe_not_fail_counterexample :
    normalizeContent "\x7b\"confidence\":0.9,\"verdict\":\"maybe\"\x7d" false =
      Except.ok { confidence := Json.num ⟨9, 1⟩
                , reasoning := some (Json.str "No reasoning provided")
                , verdict := Json.str "maybe"
                , failReason := none, suggestions := none, rawResponse := none } ∧
    Json.str "maybe" ≠ Json.str "no" :=
  ⟨rfl, by simp⟩

/-- C2 amended: on a parsed object reply carrying a `confidence` field,
the returned verdict is `verdict || "no"`: the string `"yes"` maps through
to Pass, a missing or falsy (`""`, `0`, `false`, `null`) verdict field
maps to `"no"` (Fail), and any other non-empty string — e.g. `"maybe"` —
passes through unchanged rather than being mapped to Fail. -/
theorem normalize_verdict_mapping
    (content : String) (includeRaw : Bool) (fields : List (String × Json))
    (hp : attemptParse content = some (Json.obj fields))
    (hconf : (lookupField fields "confidence").isSome = true) :
    ∃ r, normalizeContent content includeRaw = Except.ok r ∧
      r.verdict = jsOr (lookupField fields "verdict") (Json.str "no") ∧
      (lookupField fields "verdict" = some (Json.str "yes") → r.verdict = Json.str "yes") ∧
      (lookupField fields "verdict" = none → r.verdict = Json.str "no") ∧
      (∀ v, lookupField fields "verdict" = some v → jsFalsy v = true →
        r.verdict = Json.str "no") ∧
      (∀ s, lookupField fields "verdict" = some (Json.str s) → s ≠ "" →
        r.verdict = Json.str s) := by
  refine ⟨{ confidence := (lookupField fields "confidence").getD Json.null
          , reasoning := some (jsOr (lookupField fields "reasoning")
              (Json.str "No reasoning provided"))
          , verdict := jsOr (lookupField fields "verdict") (Json.str "no")
          , failReason := lookupField fields "failReason"
          , suggestions := lookupField fields "suggestions"
          , rawResponse := if includeRaw then some content else none },
      ?_, rfl, ?_, ?_, ?_, ?_⟩
  · simp [normalizeContent, hp, jsHasProp, hconf, jsGetField]
  · intro h
    simp [jsOr, h, jsFalsy]
  · intro h
    rw [h]
    rfl
  · intro v h hfal
    simp [jsOr, h, hfal]
  · intro s h hs
    have hfal : jsFalsy (Json.str s) = false := by
      simp [jsFalsy, hs]
    simp [jsOr, h, hfal]

/-- C2 witness for the amended theorem: the `"maybe"` reply from the
counterexample instantiates the passthrough clause. -/
theorem normalize_verdict_mapping_witness :
    ∃ r, normalizeContent "\x7b\"confidence\":0.9,\"verdict\":\"maybe\"\x7d" false =
        Except.ok r ∧ r.verdict = Json.str "maybe" := by
  rcases normalize_verdict_mapping "\x7b\"confidence\":0.9,\"verdict\":\"maybe\"\x7d" false
      [("confidence", Json.num ⟨9, 1⟩), ("verdict", Json.str "maybe")] rfl rfl with
    ⟨r, hok, _, _, _, _, hpass⟩
  exact ⟨r, hok, hpass "maybe" rfl (by decide)⟩

/-- C6 counterexample: a reply with `confidence: 5` — outside `[0, 1]` —
is not treated as a normalization failure: the value is passed through
silently into the returned verdict. -/
theorem out_of_range_confidence_counterexample :
    normalizeContent "\x7b\"confidence\":5,\"verdict\":\"yes\"\x7d" false =
      Except.ok { confidence := Json.num ⟨5, 0⟩
                , reasoning := some (Json.str "No reasoning provided")
                , verdict := Json.str "yes"
                , failReason := none, suggestions := none, rawResponse := none } ∧
    (1 : ℚ) < (Dec.mk 5 0).toRat :=
  ⟨rfl, by norm_num [Dec.toRat, pow10]⟩

/-- C6 amended: a parsed reply with a missing `confidence` field is
degraded to a Fail verdict with confidence 0 (that part of the claim
holds), but a present `confidence` value — in range or not — is passed
through without any `[0, 1]` validation. -/
theorem confidence_not_range_validated
    (content : String) (includeRaw : Bool) (fields : List (String × Json))
    (hp : attemptParse content = some (Json.obj fields)) :
    (lookupField fields "confidence" = none →
      normalizeContent content includeRaw = Except.ok
        { confidence := Json.num ⟨0, 0⟩
        , reasoning := some (Json.str ("Invalid response format: " ++
            stringifyJson (Json.obj fields)))
        , verdict := Json.str "no"
        , failReason := none, suggestions := none
        , rawResponse := if includeRaw then some content else none }) ∧
    (∀ v, lookupField fields "confidence" = some v →
      ∃ r, normalizeContent content includeRaw = Except.ok r ∧ r.confidence = v) := by
  constructor
  · intro hnone
    simp [normalizeContent, hp, jsHasProp, hnone]
  · intro v hsome
    refine ⟨{ confidence := (lookupField fields "confidence").getD Json.null
            , reasoning := some (jsOr (lookupField fields "reasoning")
                (Json.str "No reasoning provided"))
            , verdict := jsOr (lookupField fields "verdict") (Json.str "no")
            , failReason := lookupField fields "failReason"
            , suggestions := lookupField fields "suggestions"
            , rawResponse := if includeRaw then some content else none }, ?_, ?_⟩
    · simp [normalizeContent, hp, jsHasProp, hsome, jsGetField]
    · simp [hsome]

/-- C6 witness for the amended theorem: the missing-`confidence` branch at
the reply `{"verdict":"yes"}`. -/
theorem confidence_not_range_validated_witness :
    normalizeContent "\x7b\"verdict\":\"yes\"\x7d" false = Except.ok
      { confidence := Json.num ⟨0, 0⟩
      , reasoning := some (Json.str ("Invalid response format: " ++
          stringifyJson (Json.obj [("verdict", Json.str "yes")])))
      , verdict := Json.str "no"
      , failReason := none, suggestions := none, rawResponse := none } :=
  (confidence_not_range_validated "\x7b\"verdict\":\"yes\"\x7d" false
    [("verdict", Json.str "yes")] rfl).1 rfl

/-- C7: registry behavior — the first-ever registration becomes the
default even with `isDefault = false`; resolving with no name on an empty
registry fails; resolving a just-registered name returns that provider;
resolving or defaulting to an unregistered name fails; and a later
registration of a new name changes the default only when `isDefault` is
true (or via `setDefaultProvider`). -/
theorem llmService_registry_invariants {P : Type} :
    (∀ (name : String) (p : P) (d : Bool),
      (LLMService.registerProvider {} name p d).defaultProviderName = some name) ∧
    (({} : LLMService P).getProvider none =
      Except.error "No provider specified and no default provider set") ∧
    (∀ (svc : LLMService P) (name : String) (p : P) (d : Bool), name ≠ "" →
      (svc.registerProvider name p d).getProvider (some name) = Except.ok p) ∧
    (∀ (svc : LLMService P) (name : String), name ≠ "" →
      lookupField svc.providers name = none →
      svc.getProvider (some name) =
        Except.error ("Provider \"" ++ name ++ "\" not found")) ∧
    (∀ (svc : LLMService P) (name : String),
      lookupField svc.providers name = none →
      svc.setDefaultProvider name =
        Except.error ("Provider \"" ++ name ++ "\" not registered")) ∧
    (∀ (svc : LLMService P) (name k : String) (p : P),
      k ∈ svc.providers.map Prod.fst → k ≠ name →
      (svc.registerProvider name p false).defaultProviderName =
        svc.defaultProviderName) ∧
    (∀ (svc : LLMService P) (name : String) (p : P),
      (svc.registerProvider name p true).defaultProviderName = some name) := by
  refine ⟨?_, rfl, ?_, ?_, ?_, ?_, ?_⟩
  · intro name p d
    simp [LLMService.registerProvider, mapSet]
  · intro svc name p d hne
    have hne' : (name == "") = false := beq_eq_false_iff_ne.mpr hne
    simp [LLMService.getProvider, LLMService.registerProvider, hne',
      lookupField_mapSet_self]
  · intro svc name hne hlook
    have hne' : (name == "") = false := beq_eq_false_iff_ne.mpr hne
    simp [LLMService.getProvider, hne', hlook]
  · intro svc name hlook
    simp [LLMService.setDefaultProvider, hlook]
  · intro svc name k p hk hne
    have h2 := two_le_mapSet_length svc.providers name k p hk hne
    simp only [LLMService.registerProvider, Bool.false_or]
    rw [if_neg (by simp; omega)]
  · intro svc name p
    simp [LLMService.registerProvider]

/-- C7 witness: registering `"x"` into an empty registry and resolving it
by name returns the registered provider. -/
theorem llmService_registry_invariants_witness :
    ((({} : LLMService Nat).registerProvider "x" 5 false).getProvider (some "x")) =
      Except.ok 5 :=
  (llmService_registry_invariants (P := Nat)).2.2.1 {} "x" 5 false (by decide)

/-- C8: for each overlapping option key, the merged options used for a
check give a per-call value precedence over the session default, which
takes precedence over the backend config default (the session layer
always carries a value, so the backend default is never consulted on this
path); the merge builds fresh records from pure inputs.  Model parameters
merge per key with the same precedence. -/
theorem evaluation_options_precedence
    (o : VibeCheckOptions) (s : SessionEvaluation) (config : LLMProviderConfig)
    (merged : EvaluateOptions)
    (hm : merged = mergeEvaluateOptions config (some (mergeEvaluationOptions (some o) s))) :
    (∀ v, o.confidenceThreshold = some v → merged.confidenceThreshold = some v) ∧
    (o.confidenceThreshold = none →
      merged.confidenceThreshold = some s.confidenceThreshold) ∧
    (∀ v, o.maxRetries = some v → merged.maxRetries = some v) ∧
    (o.maxRetries = none → merged.maxRetries = some s.maxRetries) ∧
    (∀ v, o.includeRawResponse = some v → merged.includeRawResponse = some v) ∧
    (o.includeRawResponse = none →
      merged.includeRawResponse = some s.includeRawResponse) ∧
    (∀ key, ∃ mp, merged.modelParameters = some mp ∧
      lookupField mp key =
        match lookupField (o.modelParameters.getD []) key with
        | some v => some v
        | none => lookupField s.modelParameters key) := by
  subst hm
  refine ⟨?_, ?_, ?_, ?_, ?_, ?_, ?_⟩
  · intro v h
    simp [mergeEvaluateOptions, mergeEvaluationOptions, h]
  · intro h
    simp [mergeEvaluateOptions, mergeEvaluationOptions, h]
  · intro v h
    simp [mergeEvaluateOptions, mergeEvaluationOptions, h]
  · intro h
    simp [mergeEvaluateOptions, mergeEvaluationOptions, h]
  · intro v h
    simp [mergeEvaluateOptions, mergeEvaluationOptions, h]
  · intro h
    simp [mergeEvaluateOptions, mergeEvaluationOptions, h]
  · intro key
    refine ⟨recordSpread s.modelParameters (o.modelParameters.getD []), ?_, ?_⟩
    · simp [mergeEvaluateOptions, mergeEvaluationOptions]
    · exact lookupField_recordSpread s.modelParameters (o.modelParameters.getD []) key

/-- C8 witness: a per-call threshold `0.5` wins over the session default. -/
theorem evaluation_options_precedence_witness :
    (mergeEvaluateOptions {} (some (mergeEvaluationOptions
      (some { confidenceThreshold := some ⟨5, 1⟩ })
      { confidenceThreshold := ⟨8, 1⟩, includeRawResponse := false,
        maxRetries := 2, modelParameters := [] }))).confidenceThreshold = some ⟨5, 1⟩ :=
  (evaluation_options_precedence { confidenceThreshold := some ⟨5, 1⟩ }
    { confidenceThreshold := ⟨8, 1⟩, includeRawResponse := false,
      maxRetries := 2, modelParameters := [] } {} _ rfl).1 ⟨5, 1⟩ rfl

/-- C9 counterexample: on the title `"Should Verify!"` with custom name
`"btn"`, the generated name keeps the original casing and the hyphen the
`"!"` became, producing `Should-Verify--btn-<timestamp>`, which does not
match `^should-verify-btn-\d+$`. -/
theorem screenshot_name_counterexample :
    generateScreenshotName "Should Verify!" (some "btn") 1700000000000 =
      "Should-Verify--btn-1700000000000" ∧
    matchesNamePattern "should-verify-btn-"
      (generateScreenshotName "Should Verify!" (some "btn") 1700000000000) = false :=
  ⟨rfl, rfl⟩

/-- C9 amended: the generated name for title `"Should Verify!"` and custom
name `"btn"` is `"Should-Verify--btn-" ++ <timestamp digits>` — sanitized
(non-alphanumerics become hyphens, runs collapsed, case preserved) with a
doubled hyphen at the title/custom-name boundary and the timestamp
appended; it matches `^Should-Verify--btn-\d+$`. -/
theorem screenshot_name_shape :
    (∀ t, generateScreenshotName "Should Verify!" (some "btn") t =
      "Should-Verify--btn-" ++ Nat.repr t) ∧
    matchesNamePattern "Should-Verify--btn-"
      (generateScreenshotName "Should Verify!" (some "btn") 1700000000000) = true := by
  exact ⟨fun t => rfl, rfl⟩

/-- C10: provider-config validation replaces falsy values with the
built-in defaults: an explicitly configured `0` for
`defaultConfidenceThreshold`, `defaultMaxRetries` or `temperature` is
replaced by `0.8`, `3` and `0.3` respectively, and no validated config can
carry a zero in those fields. -/
theorem validateConfig_zero_unrepresentable
    (env : String → Option String) (config : LLMProviderConfig) :
    (∀ d, config.defaultConfidenceThreshold = some d → d.mant = 0 →
      (validateConfig env config).defaultConfidenceThreshold = some ⟨8, 1⟩) ∧
    (config.defaultMaxRetries = some 0 →
      (validateConfig env config).defaultMaxRetries = some 3) ∧
    (∀ d, config.temperature = some d → d.mant = 0 →
      (validateConfig env config).temperature = some ⟨3, 1⟩) ∧
    (∀ d, (validateConfig env config).defaultConfidenceThreshold = some d → d.mant ≠ 0) ∧
    (∀ n, (validateConfig env config).defaultMaxRetries = some n → n ≠ 0) ∧
    (∀ d, (validateConfig env config).temperature = some d → d.mant ≠ 0) := by
  refine ⟨?_, ?_, ?_, ?_, ?_, ?_⟩
  · intro d h hz
    simp [validateConfig, jsOrDec, h, hz]
  · intro h
    simp [validateConfig, jsOrNat, h]
  · intro d h hz
    simp [validateConfig, jsOrDec, h, hz]
  · intro d h
    have := jsOrDec_mant_ne_zero config.defaultConfidenceThreshold ⟨8, 1⟩ (by decide)
    simp [validateConfig] at h
    rw [← h]
    exact this
  · intro n h
    have := jsOrNat_ne_zero config.defaultMaxRetries 3 (by decide)
    simp [validateConfig] at h
    rw [← h]
    exact this
  · intro d h
    have := jsOrDec_mant_ne_zero config.temperature ⟨3, 1⟩ (by decide)
    simp [validateConfig] at h
    rw [← h]
    exact this

/-- C10 witness: a config that explicitly sets the threshold to `0` gets
`0.8` back. -/
theorem validateConfig_zero_unrepresentable_witness :
    (validateConfig (fun _ => none)
      { defaultConfidenceThreshold := some ⟨0, 0⟩ }).defaultConfidenceThreshold =
      some ⟨8, 1⟩ :=
  (validateConfig_zero_unrepresentable (fun _ => none)
    { defaultConfidenceThreshold := some ⟨0, 0⟩ }).1 ⟨0, 0⟩ rfl rfl

end VibeCheck

